import Mathlib

/-!
Verification of the cnj-validate library (Brazilian CNJ judicial process
identifiers): a shallow embedding of the decomposition, checksum,
jurisdiction-classification and CSV batch layers, together with theorems
settling the specified properties.

Modelling conventions:
* JavaScript strings are modelled as Lean `String` (sequences of Unicode
  scalar values); all identifiers handled by the library are ASCII.
* Thrown exceptions are modelled with `Except CNJValidationError`.
* `BigInt(string)` and `parseInt(string, 10)` are modelled exactly after the
  ECMAScript string grammars (whitespace trimming, optional sign, `0b`/`0o`/
  `0x` prefixes for `BigInt`, longest digit prefix for `parseInt`).
  `parseInt` is modelled with exact integers; the floating-point rounding it
  performs above 2^53 does not affect any branch decision proved here.
* The module-level mutable `DISTRICTS` table is made an explicit parameter
  of every function that reads it.
-/

/-! ## JavaScript string and number primitives -/

/-- The ECMAScript `StrWhiteSpace` characters (WhiteSpace and LineTerminator),
used by `String.prototype.trim`, `StringToBigInt` and `parseInt`. -/
def isJsWS (c : Char) : Bool :=
  c = ' ' || c = '\t' || c = '\n' || c = '\r' ||
  c = '\x0b' || c = '\x0c' || c = '\u00A0' || c = '\u1680' ||
  ('\u2000' ≤ c && c ≤ '\u200A') || c = '\u2028' || c = '\u2029' ||
  c = '\u202F' || c = '\u205F' || c = '\u3000' || c = '\uFEFF'

/-- Drop leading and trailing ECMAScript whitespace from a character list. -/
def trimWSList (l : List Char) : List Char :=
  ((l.dropWhile isJsWS).reverse.dropWhile isJsWS).reverse

/-- JavaScript `String.prototype.trim`. -/
def jsTrim (s : String) : String :=
  String.mk (trimWSList s.data)

/-- Numeric value of a digit character in bases up to 16 (`99` when not a
digit of any base, so that `digVal c < b` tests base-`b` digithood). -/
def digVal (c : Char) : Nat :=
  if c.isDigit then c.toNat - 48
  else if 'a' ≤ c && c ≤ 'f' then c.toNat - 87
  else if 'A' ≤ c && c ≤ 'F' then c.toNat - 55
  else 99

/-- Whether `c` is a digit of base `b` (`b` ∈ {2, 8, 10, 16}). -/
def isBaseDigit (b : Nat) (c : Char) : Bool :=
  digVal c < b

/-- Value of a base-`b` digit string; `none` unless the list is a non-empty
run of base-`b` digits. -/
def parseBaseDigits (b : Nat) (l : List Char) : Option Nat :=
  if l ≠ [] ∧ l.all (isBaseDigit b) then
    some (l.foldl (fun a c => b * a + digVal c) 0)
  else none

/-- The numeric value of a decimal digit string (the spec's "read as a
non-negative arbitrary-precision integer"). -/
def natOfDigits (l : List Char) : Nat :=
  l.foldl (fun a c => 10 * a + (c.toNat - 48)) 0

/-- `StringToBigInt` applied to an already-trimmed character list:
empty means `0`; `0b`/`0o`/`0x` introduce non-decimal literals (no sign
allowed); otherwise an optionally signed run of decimal digits. -/
def jsBigIntCore : List Char → Option Int
  | [] => some 0
  | a :: rest =>
    if a = '+' then (parseBaseDigits 10 rest).map Int.ofNat
    else if a = '-' then (parseBaseDigits 10 rest).map (fun n => -(n : Int))
    else if a = '0' then
      match rest with
      | [] => some 0
      | b :: rest2 =>
        if b = 'b' ∨ b = 'B' then (parseBaseDigits 2 rest2).map Int.ofNat
        else if b = 'o' ∨ b = 'O' then (parseBaseDigits 8 rest2).map Int.ofNat
        else if b = 'x' ∨ b = 'X' then (parseBaseDigits 16 rest2).map Int.ofNat
        else (parseBaseDigits 10 (a :: b :: rest2)).map Int.ofNat
    else (parseBaseDigits 10 (a :: rest)).map Int.ofNat

/-- JavaScript `BigInt(string)`: `none` models the thrown `SyntaxError`. -/
def jsBigIntOfString (s : String) : Option Int :=
  jsBigIntCore (trimWSList s.data)

/-- JavaScript `parseInt(string, 10)`: trim leading whitespace, optional
sign, then the longest prefix of decimal digits; `none` models `NaN`. -/
def jsParseInt (s : String) : Option Int :=
  let l := s.data.dropWhile isJsWS
  match l with
  | '+' :: rest =>
    (parseBaseDigits 10 (rest.takeWhile Char.isDigit)).map Int.ofNat
  | '-' :: rest =>
    (parseBaseDigits 10 (rest.takeWhile Char.isDigit)).map (fun n => -(n : Int))
  | _ => (parseBaseDigits 10 (l.takeWhile Char.isDigit)).map Int.ofNat

/-- JavaScript `String.prototype.padStart(n, c)`. -/
def jsPadStart (s : String) (n : Nat) (c : Char) : String :=
  String.mk (List.replicate (n - s.length) c) ++ s

/-- JavaScript `String.prototype.split` with a single-character separator
(the library only splits on `'-'`, `'.'`, `'\n'` and the CSV separator). -/
def splitChar (c : Char) : List Char → List (List Char)
  | [] => [[]]
  | x :: xs =>
    if x = c then [] :: splitChar c xs
    else
      match splitChar c xs with
      | [] => [[x]]
      | y :: ys => (x :: y) :: ys

/-- JavaScript `String.prototype.substring a b` (for `a ≤ b` within range),
as a slice of the character list. -/
def substr (s : String) (a b : Nat) : String :=
  String.mk ((s.data.drop a).take (b - a))

/-! ## Error model (`src/types/errors.ts`) -/

/-- `CNJErrorType` from `src/types/errors.ts`. -/
inductive CNJErrorType where
  | INVALID_FORMAT
  | INVALID_LENGTH
  | INVALID_VERIFYING_DIGIT
  | INVALID_SEGMENT
  | INVALID_COURT
  | INVALID_SOURCE_UNIT
  | INVALID_YEAR
  | DISTRICT_NOT_FOUND
  | CALCULATION_ERROR
  deriving Repr, DecidableEq

/-- `CNJValidationError` (type and message; the redundant `code`/`details`
fields are not needed by any claim). -/
structure CNJValidationError where
  type : CNJErrorType
  message : String
  deriving Repr, DecidableEq

/-- `CNJValidationError.invalidFormat`. -/
def mkInvalidFormat (received : String) : CNJValidationError :=
  ⟨.INVALID_FORMAT,
    "Formato CNJ inválido: " ++ received ++
      ". Esperado: NNNNNNN-DD.AAAA.J.CT.0000 ou NNNNNNNDDAAAAJCT0000"⟩

/-- `CNJValidationError.invalidLength`. -/
def mkInvalidLength (received : String) (expectedLength : Nat) : CNJValidationError :=
  ⟨.INVALID_LENGTH,
    "Tamanho CNJ inválido: " ++ toString received.length ++
      ". Esperado: " ++ toString expectedLength ++ " caracteres"⟩

/-- `CNJValidationError.invalidSegment`. -/
def mkInvalidSegment (segment : String) : CNJValidationError :=
  ⟨.INVALID_SEGMENT,
    "Código de segmento inválido: " ++ segment ++ ". Deve ser entre 1 e 9"⟩

/-- `CNJValidationError.invalidCourt`. -/
def mkInvalidCourt (court : String) (segment : Int) : CNJValidationError :=
  ⟨.INVALID_COURT,
    "Código de tribunal inválido: " ++ court ++ " para segmento " ++ toString segment⟩

/-- The `CalculationError` raised by `calculateVerifyingDigit`. -/
def mkCalculationError : CNJValidationError :=
  ⟨.CALCULATION_ERROR, "Erro no cálculo do dígito verificador"⟩

/-! ## ChecksumEngine (`src/core/validator.ts`) -/

/-- `calculateVerifyingDigit` from `src/core/validator.ts`:
`BigInt(argNumber) % 97n`, digit `98n - remainder`, rendered in decimal and
left-padded to 2 characters; a failed `BigInt` conversion becomes a
`CalculationError`.  JavaScript `%` is the truncated remainder, `Int.tmod`. -/
def calculateVerifyingDigit (argNumber : String) : Except CNJValidationError String :=
  match jsBigIntOfString argNumber with
  | none => .error mkCalculationError
  | some n => .ok (jsPadStart (toString (98 - Int.tmod n 97)) 2 '0')

deriving instance DecidableEq for Except

/-! ## SegmentTable (`src/types/segment.ts`, `src/data/segments.ts`) -/

/-- `Segment` from `src/types/segment.ts`.  `number` is an `Int` so that
claims may quantify over arbitrary records of this shape. -/
structure Segment where
  number : Int
  name : String
  short : String
  deriving Repr, DecidableEq

/-- The static `SEGMENTS` table from `src/data/segments.ts`
(`Record<number, Segment>` with keys 1–9). -/
def SEGMENTS (n : Int) : Option Segment :=
  if n = 1 then some ⟨1, "Supremo Tribunal Federal", "STF"⟩
  else if n = 2 then some ⟨2, "Conselho Nacional de Justiça", "CNJ"⟩
  else if n = 3 then some ⟨3, "Superior Tribunal de Justiça", "STJ"⟩
  else if n = 4 then some ⟨4, "Justiça Federal", "TRF"⟩
  else if n = 5 then some ⟨5, "Justiça do Trabalho", "TRT"⟩
  else if n = 6 then some ⟨6, "Justiça Eleitoral", "TRE"⟩
  else if n = 7 then some ⟨7, "Justiça Militar da União", "STM"⟩
  else if n = 8 then
    some ⟨8, "Justiça dos Estados e do Distrito Federal e Territórios", "TJ"⟩
  else if n = 9 then some ⟨9, "Justiça Militar Estadual", "TJM"⟩
  else none

/-- `getSegment` from `src/data/segments.ts`: `parseInt` the code, reject
`NaN` and codes outside 1–9, then look up the table. -/
def getSegment (segmentCode : String) : Option Segment :=
  match jsParseInt segmentCode with
  | none => none
  | some code => if code < 1 ∨ code > 9 then none else SEGMENTS code

/-! ## DistrictIndex (`src/data/districts.ts`) -/

/-- `DistrictInfo` from `src/types/district.ts`. -/
structure DistrictInfo where
  sourceUnit : String
  uf : String
  district : String
  deriving Repr, DecidableEq

/-- The mutable `DISTRICTS` record, modelled as an association list in which
the most recent binding of a key shadows older ones. -/
def DistrictMap := List (String × DistrictInfo)

/-- `getDistrictInfo` from `src/data/districts.ts` (`DISTRICTS[key] || null`). -/
def getDistrictInfo (m : DistrictMap) (key : String) : Option DistrictInfo :=
  match List.find? (fun p => p.1 = key) m with
  | some p => some p.2
  | none => none

/-- `generateDistrictKey` from `src/data/districts.ts`. -/
def generateDistrictKey (segment court sourceUnit : String) : String :=
  segment ++ "." ++ court ++ "." ++ sourceUnit

/-- `addDistrict` from `src/data/districts.ts` (`DISTRICTS[key] = district`):
returns the updated table. -/
def addDistrict (m : DistrictMap) (key : String) (district : DistrictInfo) : DistrictMap :=
  (key, district) :: m

/-- `hasDistrict` from `src/data/districts.ts` (`key in DISTRICTS`). -/
def hasDistrict (m : DistrictMap) (key : String) : Bool :=
  (List.find? (fun p => p.1 = key) m).isSome

/-! ## Decomposer (`src/core/decomposer.ts`) -/

/-- `DecomposedCNJ` from `src/types/analysis.ts`. -/
structure DecomposedCNJ where
  lawsuitCNJFormat : String
  lawsuitNumber : String
  verifyingDigit : String
  protocolYear : String
  segment : String
  court : String
  sourceUnit : String
  argNumber : String
  district : String
  uf : String
  tj : String
  deriving Repr, DecidableEq

/-- The `MATH_SUFFIX` constant from `src/core/decomposer.ts`. -/
def MATH_SUFFIX : String := "00"

/-- `generateTJCode` from `src/core/decomposer.ts`: segments 1, 2, 3, 4, 7
use `short + parseInt(court)`; a missing segment yields `""`; a `NaN` court
yields `""`; other segments use `short + uf`. -/
def generateTJCode (court uf : String) (segmentInfo : Option Segment) : String :=
  match segmentInfo with
  | none => ""
  | some si =>
    if si.number = 1 ∨ si.number = 2 ∨ si.number = 3 ∨ si.number = 4 ∨ si.number = 7 then
      match jsParseInt court with
      | none => ""
      | some n => si.short ++ toString n
    else si.short ++ uf

/-- The six positional components handed to `buildDecomposedCNJ`. -/
structure CNJComponents where
  lawsuitNumber : String
  verifyingDigit : String
  protocolYear : String
  segment : String
  court : String
  sourceUnit : String
  deriving Repr, DecidableEq

/-- `buildDecomposedCNJ` from `src/core/decomposer.ts`: derives `argNumber`,
looks up the district (miss yields empty fields) and the segment, and
assembles the record.  Total: it never fails. -/
def buildDecomposedCNJ (districts : DistrictMap) (c : CNJComponents) : DecomposedCNJ :=
  let argNumber :=
    c.lawsuitNumber ++ c.protocolYear ++ c.segment ++ c.court ++ c.sourceUnit ++ MATH_SUFFIX
  let districtKey := generateDistrictKey c.segment c.court c.sourceUnit
  let districtInfo := getDistrictInfo districts districtKey
  let segmentInfo := getSegment c.segment
  let tj := generateTJCode c.court ((districtInfo.map (·.uf)).getD "") segmentInfo
  let lawsuitCNJFormat :=
    c.lawsuitNumber ++ "-" ++ c.verifyingDigit ++ "." ++ c.protocolYear ++ "." ++
      c.segment ++ "." ++ c.court ++ "." ++ c.sourceUnit
  { lawsuitCNJFormat := lawsuitCNJFormat
    lawsuitNumber := c.lawsuitNumber
    verifyingDigit := c.verifyingDigit
    protocolYear := c.protocolYear
    segment := c.segment
    court := c.court
    sourceUnit := c.sourceUnit
    argNumber := argNumber
    district := (districtInfo.map (·.sourceUnit)).getD ""
    uf := (districtInfo.map (·.uf)).getD ""
    tj := tj }

/-- `decomposeFormattedCNJ` from `src/core/decomposer.ts`: split on `'-'`
into exactly two parts, the second into exactly five `'.'`-separated parts;
no width validation is performed on the parts. -/
def decomposeFormattedCNJ (districts : DistrictMap) (cnj : String) :
    Except CNJValidationError DecomposedCNJ :=
  match splitChar '-' cnj.data with
  | [p0, p1] =>
    match splitChar '.' p1 with
    | [vd, py, seg, ct, su] =>
      .ok (buildDecomposedCNJ districts
        ⟨String.mk p0, String.mk vd, String.mk py, String.mk seg,
          String.mk ct, String.mk su⟩)
    | _ => .error (mkInvalidFormat cnj)
  | _ => .error (mkInvalidFormat cnj)

/-- `decomposeUnformattedCNJ` from `src/core/decomposer.ts`: exactly 20
characters, sliced at offsets 0, 7, 9, 13, 14, 16, 20. -/
def decomposeUnformattedCNJ (districts : DistrictMap) (cnj : String) :
    Except CNJValidationError DecomposedCNJ :=
  if cnj.length ≠ 20 then .error (mkInvalidLength cnj 20)
  else
    .ok (buildDecomposedCNJ districts
      ⟨substr cnj 0 7, substr cnj 7 9, substr cnj 9 13, substr cnj 13 14,
        substr cnj 14 16, substr cnj 16 20⟩)

/-- `decomposeCNJ` from `src/core/decomposer.ts`: length must be 20–25;
a hyphen selects the masked syntax, otherwise the compact one. -/
def decomposeCNJ (districts : DistrictMap) (cnj : String) :
    Except CNJValidationError DecomposedCNJ :=
  if cnj.length > 25 ∨ cnj.length < 20 then .error (mkInvalidLength cnj 20)
  else if '-' ∈ cnj.data then decomposeFormattedCNJ districts cnj
  else decomposeUnformattedCNJ districts cnj

/-! ## Validator (`src/core/validator.ts`) -/

/-- `ValidationResult` from `src/types/analysis.ts` (optional fields become
`Option`). -/
structure ValidationResult where
  isValid : Bool
  expectedDigit : Option String
  receivedDigit : Option String
  error : Option String
  deriving Repr, DecidableEq

/-- `validateCNJ` from `src/core/validator.ts`: decompose, compute the
expected digit, compare with the received one; any exception from the two
steps is caught and becomes `{ isValid: false, error: message }`. -/
def validateCNJ (districts : DistrictMap) (cnj : String) : ValidationResult :=
  match decomposeCNJ districts cnj with
  | .error e => ⟨false, none, none, some e.message⟩
  | .ok decomposed =>
    match calculateVerifyingDigit decomposed.argNumber with
    | .error e => ⟨false, none, none, some e.message⟩
    | .ok expectedDigit =>
      let isValid := decomposed.verifyingDigit = expectedDigit
      ⟨isValid, some expectedDigit, some decomposed.verifyingDigit,
        if isValid then none
        else some ("Dígito verificador inválido. Esperado: " ++ expectedDigit ++
          ", Recebido: " ++ decomposed.verifyingDigit)⟩

/-- `normalizeCNJ` from `src/core/validator.ts` (`replace(/\D/g, "")`). -/
def normalizeCNJ (cnj : String) : String :=
  String.mk (cnj.data.filter Char.isDigit)

/-- `formatCNJ` from `src/core/validator.ts`: normalize, require exactly 20
digits, and re-render with the dash-dot mask. -/
def formatCNJ (cnj : String) : Except CNJValidationError String :=
  let n := normalizeCNJ cnj
  if n.length ≠ 20 then .error (mkInvalidLength cnj 20)
  else
    .ok (substr n 0 7 ++ "-" ++ substr n 7 9 ++ "." ++ substr n 9 13 ++ "." ++
      substr n 13 14 ++ "." ++ substr n 14 16 ++ "." ++ substr n 16 20)

/-! ## CourtClassifier (`src/core/court-analyzer.ts`, `src/types/court.ts`) -/

/-- `OriginCourt` from `src/types/court.ts`. -/
structure OriginCourt where
  originCourtType : String
  originCourtNumber : String
  deriving Repr, DecidableEq

/-- `CourtType.ORIGINAL_LAWSUIT`. -/
def ORIGINAL_LAWSUIT : String := "Processo Originário"

/-- `CourtType.MARTIAL_COURT`. -/
def MARTIAL_COURT : String := "Tribunal Militar Estadual"

/-- `CourtType.REGION`. -/
def REGION : String := "região"

/-- `CourtType.ESTATE`. -/
def ESTATE : String := "unidade federativa"

/-- `CourtType.JUDICIAL_CIRCUIT`. -/
def JUDICIAL_CIRCUIT : String := "circunscrição judiciária"

/-- `MAX_COURT_BY_SEGMENT` from `src/types/court.ts`. -/
def MAX_COURT_BY_SEGMENT (n : Int) : Option Nat :=
  if n = 1 then some 0
  else if n = 2 then some 0
  else if n = 3 then some 0
  else if n = 4 then some 5
  else if n = 5 then some 24
  else if n = 6 then some 27
  else if n = 7 then some 12
  else if n = 8 then some 27
  else if n = 9 then some 3
  else none

/-- `isCourtValid` from `src/core/court-analyzer.ts`: a stored maximum of 0
means "no limit" (`return true`); a missing entry makes both the `=== 0`
test and the `<=` comparison fail, hence `false`. -/
def isCourtValid (segment : Segment) (courtNumber : Int) : Bool :=
  match MAX_COURT_BY_SEGMENT segment.number with
  | some 0 => true
  | some m => 1 ≤ courtNumber ∧ courtNumber ≤ (m : Int)
  | none => false

/-- `getCourtTypeAndNumber` from `src/core/court-analyzer.ts`. -/
def getCourtTypeAndNumber (segment : Segment) (courtNumber : Int) :
    Except CNJValidationError (String × String) :=
  if segment.number = 4 ∨ segment.number = 5 then
    .ok (REGION, toString courtNumber)
  else if segment.number = 6 ∨ segment.number = 8 then
    .ok (ESTATE, toString courtNumber)
  else if segment.number = 7 then
    .ok (JUDICIAL_CIRCUIT, toString courtNumber)
  else .error (mkInvalidCourt (toString courtNumber) segment.number)

/-- `parseMilitaryCourt` from `src/core/court-analyzer.ts` (codes 13, 21, 26
from `MilitaryCourtCodes`). -/
def parseMilitaryCourt (courtCode : Int) : Except CNJValidationError OriginCourt :=
  if courtCode = 13 then .ok ⟨MARTIAL_COURT, "Minas Gerais - MG"⟩
  else if courtCode = 21 then .ok ⟨MARTIAL_COURT, "Rio Grande do Sul - RS"⟩
  else if courtCode = 26 then .ok ⟨MARTIAL_COURT, "São Paulo - SP"⟩
  else .error (mkInvalidCourt (toString courtCode) 9)

/-- `parseCourtOther` from `src/core/court-analyzer.ts`. -/
def parseCourtOther (segment : Segment) (court : String) :
    Except CNJValidationError OriginCourt :=
  match jsParseInt court with
  | none => .error (mkInvalidCourt court segment.number)
  | some courtNumber =>
    if segment.number = 9 then parseMilitaryCourt courtNumber
    else if ¬ isCourtValid segment courtNumber then
      .error (mkInvalidCourt court segment.number)
    else
      (getCourtTypeAndNumber segment courtNumber).map
        (fun p => ⟨p.1, p.2⟩)

/-- `parseCourt00` from `src/core/court-analyzer.ts` ("processo
originário"). -/
def parseCourt00 (segment : Segment) : Except CNJValidationError OriginCourt :=
  if segment.number = 1 ∨ segment.number = 2 ∨ segment.number = 3 then
    .ok ⟨ORIGINAL_LAWSUIT, segment.name ++ " (" ++ segment.short ++ ")"⟩
  else if segment.number = 5 then
    .ok ⟨ORIGINAL_LAWSUIT, "Tribunal Superior do Trabalho (TST)"⟩
  else if segment.number = 6 then
    .ok ⟨ORIGINAL_LAWSUIT, "Tribunal Superior Eleitoral (TSE)"⟩
  else if segment.number = 7 ∨ segment.number = 9 then
    .ok ⟨ORIGINAL_LAWSUIT, "Superior Tribunal Militar (STM)"⟩
  else .error (mkInvalidCourt "00" segment.number)

/-- `parseCourt90` from `src/core/court-analyzer.ts` ("conselhos
especiais"). -/
def parseCourt90 (segment : Segment) : Except CNJValidationError OriginCourt :=
  if segment.number = 4 then
    .ok ⟨ORIGINAL_LAWSUIT, "Conselho da Justiça Federal"⟩
  else if segment.number = 5 then
    .ok ⟨ORIGINAL_LAWSUIT, "Conselho Superior da Justiça do Trabalho"⟩
  else .error (mkInvalidCourt "90" segment.number)

/-- `getOriginCourt` from `src/core/court-analyzer.ts`. -/
def getOriginCourt (court : String) (segment : Segment) :
    Except CNJValidationError OriginCourt :=
  if court = "00" then parseCourt00 segment
  else if court = "90" then parseCourt90 segment
  else parseCourtOther segment court

/-! ## SourceUnitClassifier (`src/core/source-unit-analyzer.ts`,
`src/types/source-unit.ts`) -/

/-- `SourceUnit` from `src/types/source-unit.ts`. -/
structure SourceUnit where
  sourceUnitType : String
  sourceUnitNumber : String
  deriving Repr, DecidableEq

/-- `SourceUnitType.JUSTICE_SECTION`. -/
def JUSTICE_SECTION : String := "subseção judiciária"

/-- `SourceUnitType.LABOR_UNIT`. -/
def LABOR_UNIT : String := "vara do trabalho"

/-- `SourceUnitType.ELECTORAL_UNIT`. -/
def ELECTORAL_UNIT : String := "zona eleitoral"

/-- `SourceUnitType.MILITARY_UNIT`. -/
def MILITARY_UNIT : String := "auditoria militar"

/-- `SourceUnitType.CIVIL_UNIT`. -/
def CIVIL_UNIT : String := "foro"

/-- `SourceUnitType.COURT_UNIT_SINGLE`. -/
def COURT_UNIT_SINGLE : String := "competência originária do Tribunal"

/-- `SourceUnitType.COURT_UNIT`. -/
def COURT_UNIT : String := "competência originária da Turma Recursal"

/-- `SOURCE_UNIT_CONFIG` from `src/types/source-unit.ts`. -/
def SOURCE_UNIT_CONFIG (n : Int) : Option String :=
  if n = 1 then some COURT_UNIT_SINGLE
  else if n = 2 then some COURT_UNIT_SINGLE
  else if n = 3 then some COURT_UNIT_SINGLE
  else if n = 4 then some JUSTICE_SECTION
  else if n = 5 then some LABOR_UNIT
  else if n = 6 then some ELECTORAL_UNIT
  else if n = 7 then some MILITARY_UNIT
  else if n = 8 then some CIVIL_UNIT
  else if n = 9 then some MILITARY_UNIT
  else none

/-- `getSourceUnit` from `src/core/source-unit-analyzer.ts`: `"0000"` first,
then a leading `'9'`, then the per-segment default table with `CIVIL_UNIT`
as the fallback (`|| SourceUnitType.CIVIL_UNIT`).  Total: never fails. -/
def getSourceUnit (sourceUnit : String) (segment : Segment) : SourceUnit :=
  if sourceUnit = "0000" then ⟨COURT_UNIT_SINGLE, sourceUnit⟩
  else if sourceUnit.data.head? = some '9' then ⟨COURT_UNIT, sourceUnit⟩
  else ⟨(SOURCE_UNIT_CONFIG segment.number).getD CIVIL_UNIT, sourceUnit⟩

/-! ## Analyzer (`src/core/analyzer.ts`) -/

/-- `AnalysisCNJ` from `src/types/analysis.ts`. -/
structure AnalysisCNJ where
  receivedCNJ : String
  validCNJ : Bool
  segmentName : String
  segmentShort : String
  sourceUnitType : String
  sourceUnitNumber : String
  courtType : String
  courtNumber : String
  detailed : DecomposedCNJ
  deriving Repr, DecidableEq

/-- `analyzeCNJ` from `src/core/analyzer.ts`: decompose, validate, resolve
the segment (a miss is a hard `InvalidSegment` error), classify source unit
and court, assemble.  All failures raised inside are `CNJValidationError`s,
which the surrounding `catch` rethrows unchanged. -/
def analyzeCNJ (districts : DistrictMap) (cnj : String) :
    Except CNJValidationError AnalysisCNJ := do
  let decomposed ← decomposeCNJ districts cnj
  let validation := validateCNJ districts cnj
  let segment ←
    match getSegment decomposed.segment with
    | none => Except.error (mkInvalidSegment decomposed.segment)
    | some s => Except.ok s
  let sourceUnit := getSourceUnit decomposed.sourceUnit segment
  let originCourt ← getOriginCourt decomposed.court segment
  return {
    receivedCNJ := cnj
    validCNJ := validation.isValid
    segmentName := segment.name
    segmentShort := segment.short
    sourceUnitType := sourceUnit.sourceUnitType
    sourceUnitNumber := sourceUnit.sourceUnitNumber
    courtType := originCourt.originCourtType
    courtNumber := originCourt.originCourtNumber
    detailed := decomposed }

/-! ## BatchProcessor (`src/csv/processor.ts`) -/

/-- One entry of the `errors` array of `CSVProcessingResult`. -/
structure CSVError where
  line : Nat
  cnj : String
  error : String
  deriving Repr, DecidableEq

/-- `CSVProcessingResult` from `src/types/analysis.ts`. -/
structure CSVProcessingResult where
  totalProcessed : Nat
  validCount : Nat
  invalidCount : Nat
  errors : List CSVError
  deriving Repr, DecidableEq

/-- The error-placeholder `AnalysisCNJ` pushed by `processCSV` when
`analyzeCNJ` throws ("Adiciona resultado com erro para manter
consistência"). -/
def errorPlaceholder (cnj errorMessage : String) : AnalysisCNJ :=
  { receivedCNJ := cnj
    validCNJ := false
    segmentName := errorMessage
    segmentShort := "ERRO"
    sourceUnitType := errorMessage
    sourceUnitNumber := ""
    courtType := errorMessage
    courtNumber := ""
    detailed := ⟨"", "", "", "", "", "", "", "", "", "", ""⟩ }

/-- The body of `processCSV`'s `lines.forEach((line, index) => ...)`:
returns the accumulated results and error entries, with `idx` the 0-based
index of the first line of the suffix within the filtered line list. -/
def processCSVAux (districts : DistrictMap) (sep : Char) :
    List String → Nat → List AnalysisCNJ × List CSVError
  | [], _ => ([], [])
  | line :: rest, idx =>
    let tail := processCSVAux districts sep rest (idx + 1)
    let cnj := jsTrim (String.mk ((splitChar sep line.data).headD []))
    if cnj = "" then
      (tail.1, ⟨idx + 1, line, "Linha vazia ou CNJ não encontrado"⟩ :: tail.2)
    else
      match analyzeCNJ districts cnj with
      | .ok analysis => (analysis :: tail.1, tail.2)
      | .error e =>
        (errorPlaceholder cnj e.message :: tail.1,
          ⟨idx + 1, cnj, e.message⟩ :: tail.2)

/-- The filtered line list of `processCSV`
(`csvContent.split('\n').filter(line => line.trim())`). -/
def csvLines (csvContent : String) : List String :=
  ((splitChar '\n' csvContent.data).map String.mk).filter (fun l => jsTrim l ≠ "")

/-- `processCSV` from `src/csv/processor.ts`, with the separator option as
an explicit single character (default `','`). -/
def processCSV (districts : DistrictMap) (sep : Char) (csvContent : String) :
    CSVProcessingResult :=
  let lines := csvLines csvContent
  let acc := processCSVAux districts sep lines 0
  let validCount := (acc.1.filter (·.validCNJ)).length
  { totalProcessed := lines.length
    validCount := validCount
    invalidCount := acc.1.length - validCount
    errors := acc.2 }

/-! ## Helper lemmas: characters, whitespace, digit parsing -/

theorem isDigit_iff_toNat (c : Char) : c.isDigit = true ↔ (48 ≤ c.toNat ∧ c.toNat ≤ 57) := by
  simp only [Char.isDigit, Bool.and_eq_true, decide_eq_true_eq]
  exact ⟨fun h => ⟨h.1, h.2⟩, fun h => ⟨h.1, h.2⟩⟩

theorem char_eq_iff_toNat (c d : Char) : c = d ↔ c.toNat = d.toNat :=
  ⟨fun h => by rw [h], fun h => Char.ext (UInt32.ext h)⟩

theorem char_le_iff_toNat (c d : Char) : c ≤ d ↔ c.toNat ≤ d.toNat := Iff.rfl

theorem digit_not_jsWS (c : Char) (h : c.isDigit = true) : isJsWS c = false := by
  rw [isDigit_iff_toNat] at h
  simp only [isJsWS, Bool.or_eq_false_iff, decide_eq_false_iff_not,
    Bool.and_eq_false_iff, decide_eq_false_iff_not, char_eq_iff_toNat, char_le_iff_toNat,
    show (' ').toNat = 32 from rfl, show ('\t').toNat = 9 from rfl,
    show ('\n').toNat = 10 from rfl, show ('\r').toNat = 13 from rfl,
    show ('\x0b').toNat = 11 from rfl, show ('\x0c').toNat = 12 from rfl,
    show (' ').toNat = 160 from rfl, show (' ').toNat = 5760 from rfl,
    show (' ').toNat = 8192 from rfl, show (' ').toNat = 8202 from rfl,
    show (' ').toNat = 8232 from rfl, show (' ').toNat = 8233 from rfl,
    show (' ').toNat = 8239 from rfl, show (' ').toNat = 8287 from rfl,
    show ('　').toNat = 12288 from rfl, show ('﻿').toNat = 65279 from rfl]
  omega

theorem digVal_of_digit (c : Char) (h : c.isDigit = true) : digVal c = c.toNat - 48 := by
  simp [digVal, h]

theorem isBaseDigit10_of_digit (c : Char) (h : c.isDigit = true) : isBaseDigit 10 c = true := by
  have hn := (isDigit_iff_toNat c).mp h
  simp only [isBaseDigit, digVal_of_digit c h, decide_eq_true_eq]
  omega

theorem dropWhile_eq_self_of_none {α : Type} (p : α → Bool) :
    ∀ l : List α, (∀ c ∈ l, p c = false) → l.dropWhile p = l := by
  intro l h
  cases l with
  | nil => rfl
  | cons a t =>
    rw [List.dropWhile_cons, h a (List.mem_cons_self a t)]
    simp

theorem trimWS_eq_self (l : List Char) (h : ∀ c ∈ l, isJsWS c = false) : trimWSList l = l := by
  unfold trimWSList
  rw [dropWhile_eq_self_of_none _ l h,
    dropWhile_eq_self_of_none _ l.reverse (fun c hc => h c (List.mem_reverse.mp hc)),
    List.reverse_reverse]

theorem foldl_digVal_eq (l : List Char) (h : ∀ c ∈ l, c.isDigit = true) :
    ∀ a : Nat, l.foldl (fun a c => 10 * a + digVal c) a =
      l.foldl (fun a c => 10 * a + (c.toNat - 48)) a := by
  induction l with
  | nil => intro a; rfl
  | cons c t ih =>
    intro a
    simp only [List.foldl_cons, digVal_of_digit c (h c (List.mem_cons_self c t))]
    exact ih (fun x hx => h x (List.mem_cons_of_mem c hx)) _

theorem parseBaseDigits10_of_digits (l : List Char) (hne : l ≠ [])
    (h : ∀ c ∈ l, c.isDigit = true) : parseBaseDigits 10 l = some (natOfDigits l) := by
  unfold parseBaseDigits natOfDigits
  rw [if_pos ⟨hne, List.all_eq_true.mpr (fun c hc => isBaseDigit10_of_digit c (h c hc))⟩,
    foldl_digVal_eq l h 0]

theorem jsBigIntCore_of_digits (l : List Char) (hne : l ≠ [])
    (h : ∀ c ∈ l, c.isDigit = true) : jsBigIntCore l = some (Int.ofNat (natOfDigits l)) := by
  match l, hne with
  | a :: rest, _ =>
    have ha := h a (List.mem_cons_self a rest)
    have han := (isDigit_iff_toNat a).mp ha
    have hplus : ¬ a = '+' := by
      rw [char_eq_iff_toNat, show ('+').toNat = 43 from rfl]; omega
    have hminus : ¬ a = '-' := by
      rw [char_eq_iff_toNat, show ('-').toNat = 45 from rfl]; omega
    rw [jsBigIntCore.eq_def]
    simp only []
    rw [if_neg hplus, if_neg hminus]
    by_cases h0 : a = '0'
    · rw [if_pos h0]
      cases rest with
      | nil => subst h0; rfl
      | cons b rest2 =>
        have hb := h b (List.mem_cons_of_mem a (List.mem_cons_self b rest2))
        have hbn := (isDigit_iff_toNat b).mp hb
        have hb1 : ¬ (b = 'b' ∨ b = 'B') := by
          rw [char_eq_iff_toNat, char_eq_iff_toNat,
            show ('b').toNat = 98 from rfl, show ('B').toNat = 66 from rfl]
          omega
        have hb2 : ¬ (b = 'o' ∨ b = 'O') := by
          rw [char_eq_iff_toNat, char_eq_iff_toNat,
            show ('o').toNat = 111 from rfl, show ('O').toNat = 79 from rfl]
          omega
        have hb3 : ¬ (b = 'x' ∨ b = 'X') := by
          rw [char_eq_iff_toNat, char_eq_iff_toNat,
            show ('x').toNat = 120 from rfl, show ('X').toNat = 88 from rfl]
          omega
        dsimp only
        rw [if_neg hb1, if_neg hb2, if_neg hb3,
          parseBaseDigits10_of_digits _ (by simp) h]
        rfl
    · rw [if_neg h0, parseBaseDigits10_of_digits _ (by simp) h]
      rfl

theorem jsBigIntOfString_of_digits (s : String) (hne : s.data ≠ [])
    (h : ∀ c ∈ s.data, c.isDigit = true) :
    jsBigIntOfString s = some (Int.ofNat (natOfDigits s.data)) := by
  unfold jsBigIntOfString
  rw [trimWS_eq_self s.data (fun c hc => digit_not_jsWS c (h c hc))]
  exact jsBigIntCore_of_digits s.data hne h

theorem calculateVerifyingDigit_of_digits (s : String) (hne : s.data ≠ [])
    (hdig : ∀ c ∈ s.data, c.isDigit = true) :
    calculateVerifyingDigit s =
      .ok (jsPadStart (toString (98 - natOfDigits s.data % 97)) 2 '0') := by
  unfold calculateVerifyingDigit
  rw [jsBigIntOfString_of_digits s hne hdig]
  dsimp only
  have h1 : Int.tmod (Int.ofNat (natOfDigits s.data)) 97 =
      Int.ofNat (natOfDigits s.data % 97) := rfl
  have hlt : natOfDigits s.data % 97 < 97 := Nat.mod_lt _ (by norm_num)
  have h2 : (98 : Int) - Int.ofNat (natOfDigits s.data % 97) =
      Int.ofNat (98 - natOfDigits s.data % 97) := by
    simp only [Int.ofNat_eq_natCast]
    omega
  rw [h1, h2]
  rfl

theorem pad_len_two : ∀ k < 99, (jsPadStart (toString k) 2 '0').length = 2 := by decide

/-- C1: for every 20-character decimal-digit string, `calculateVerifyingDigit`
returns the decimal representation of `98 - (N mod 97)` (with `N` the string
read as a non-negative integer), left-padded with `'0'` to exactly 2
characters; and for the identifier `"0001327-64.2018.8.26.0158"` the expected
digit is `"64"` and `validateCNJ` reports `isValid = true` (for every state of
the district table). -/
theorem spec_C1 (s : String) (hlen : s.length = 20)
    (hdig : ∀ c ∈ s.data, c.isDigit = true) :
    calculateVerifyingDigit s =
      .ok (jsPadStart (toString (98 - natOfDigits s.data % 97)) 2 '0') ∧
    (jsPadStart (toString (98 - natOfDigits s.data % 97)) 2 '0').length = 2 ∧
    (∀ districts : DistrictMap,
      validateCNJ districts "0001327-64.2018.8.26.0158" =
        ⟨true, some "64", some "64", none⟩) := by
  have hne : s.data ≠ [] := by
    intro h
    rw [show s.length = s.data.length from rfl, h] at hlen
    simp at hlen
  refine ⟨calculateVerifyingDigit_of_digits s hne hdig, pad_len_two _ ?_, fun districts => rfl⟩
  have hlt : natOfDigits s.data % 97 < 97 := Nat.mod_lt _ (by norm_num)
  omega

/-- Witness for C1 at the 20-digit checksum input of the reference
identifier; the padded digit evaluates to `"64"`. -/
theorem spec_C1_witness :
    calculateVerifyingDigit "00013272018826015800" =
      .ok (jsPadStart (toString (98 - natOfDigits "00013272018826015800".data % 97)) 2 '0') ∧
    (jsPadStart (toString (98 - natOfDigits "00013272018826015800".data % 97)) 2 '0').length = 2 ∧
    (∀ districts : DistrictMap,
      validateCNJ districts "0001327-64.2018.8.26.0158" =
        ⟨true, some "64", some "64", none⟩) :=
  spec_C1 "00013272018826015800" rfl (by decide)

/-- C6 counterexample: the empty string is not a non-empty sequence of
decimal digits, yet `calculateVerifyingDigit` does not raise a
`CalculationError` on it — JavaScript `BigInt("")` evaluates to `0n`, so the
function returns `"98"`. -/
theorem spec_C6_counterexample :
    calculateVerifyingDigit "" = .ok "98" ∧ "".data = ([] : List Char) := by
  exact ⟨rfl, rfl⟩

/-- C6 (amended): `calculateVerifyingDigit` returns normally on every
non-empty decimal-digit string, and it fails (always with the fixed
`CalculationError`) exactly when the JavaScript `BigInt` string conversion
fails — a strictly weaker condition than "not a non-empty digit string",
since e.g. `""`, signed decimals and `0x`/`0o`/`0b` literals convert too. -/
theorem spec_C6 (s : String) :
    (s.data ≠ [] → (∀ c ∈ s.data, c.isDigit = true) →
      calculateVerifyingDigit s =
        .ok (jsPadStart (toString (98 - natOfDigits s.data % 97)) 2 '0')) ∧
    ((∃ e, calculateVerifyingDigit s = .error e) ↔ jsBigIntOfString s = none) ∧
    (∀ e, calculateVerifyingDigit s = .error e → e = mkCalculationError) := by
  refine ⟨fun hne hdig => calculateVerifyingDigit_of_digits s hne hdig, ?_, ?_⟩
  · constructor
    · rintro ⟨e, he⟩
      unfold calculateVerifyingDigit at he
      cases h : jsBigIntOfString s with
      | none => rfl
      | some n => rw [h] at he; exact absurd he (by simp)
    · intro h
      exact ⟨mkCalculationError, by unfold calculateVerifyingDigit; rw [h]⟩
  · intro e he
    unfold calculateVerifyingDigit at he
    cases h : jsBigIntOfString s with
    | none => rw [h] at he; simpa using he.symm
    | some n => rw [h] at he; exact absurd he (by simp)

/-- Witness for C6 at `"123"` (digit string: returns normally) and at
`"invalid"` (failed `BigInt` conversion: returns the `CalculationError`). -/
theorem spec_C6_witness :
    calculateVerifyingDigit "123" =
      .ok (jsPadStart (toString (98 - natOfDigits "123".data % 97)) 2 '0') ∧
    (∃ e, calculateVerifyingDigit "invalid" = .error e) :=
  ⟨(spec_C6 "123").1 (by decide) (by decide),
    (spec_C6 "invalid").2.1.mpr (by decide)⟩

theorem str_ne_empty_of_len_pos (s : String) (h : 0 < s.length) : s ≠ "" := by
  intro he
  rw [he] at h
  simp at h

theorem len_pos_append_left (a b : String) (h : 0 < a.length) : 0 < (a ++ b).length := by
  rw [String.length_append]
  omega

theorem decomposeCNJ_error_message (districts : DistrictMap) (cnj : String)
    (e : CNJValidationError) (h : decomposeCNJ districts cnj = .error e) :
    e.message ≠ "" := by
  unfold decomposeCNJ decomposeFormattedCNJ decomposeUnformattedCNJ at h
  split at h
  · cases h
    exact str_ne_empty_of_len_pos _
      (len_pos_append_left _ _ (len_pos_append_left _ _ (len_pos_append_left _ _
        (len_pos_append_left _ _ (by decide)))))
  · split at h
    · split at h
      · split at h
        · exact absurd h (by simp)
        · cases h
          exact str_ne_empty_of_len_pos _
            (len_pos_append_left _ _ (len_pos_append_left _ _ (by decide)))
      · cases h
        exact str_ne_empty_of_len_pos _
          (len_pos_append_left _ _ (len_pos_append_left _ _ (by decide)))
    · split at h
      · cases h
        exact str_ne_empty_of_len_pos _
          (len_pos_append_left _ _ (len_pos_append_left _ _ (len_pos_append_left _ _
            (len_pos_append_left _ _ (by decide)))))
      · exact absurd h (by simp)

theorem calcVD_error_eq (arg : String) (e : CNJValidationError)
    (h : calculateVerifyingDigit arg = .error e) : e = mkCalculationError := by
  unfold calculateVerifyingDigit at h
  split at h
  · cases h; rfl
  · exact absurd h (by simp)

/-- C2: `validateCNJ` never raises — it is a total function into
`ValidationResult`; whenever the result is negative the error message is
present and non-empty (in particular on decomposition failures, whose
message it copies), and on a checksum mismatch both `expectedDigit` and
`receivedDigit` are populated alongside the descriptive error. -/
theorem spec_C2 (districts : DistrictMap) (cnj : String) :
    ((validateCNJ districts cnj).isValid = false →
      ∃ msg, (validateCNJ districts cnj).error = some msg ∧ msg ≠ "") ∧
    (∀ e, decomposeCNJ districts cnj = .error e →
      validateCNJ districts cnj = ⟨false, none, none, some e.message⟩ ∧ e.message ≠ "") ∧
    (∀ d exp, decomposeCNJ districts cnj = .ok d →
      calculateVerifyingDigit d.argNumber = .ok exp → d.verifyingDigit ≠ exp →
      validateCNJ districts cnj =
        ⟨false, some exp, some d.verifyingDigit,
          some ("Dígito verificador inválido. Esperado: " ++ exp ++
            ", Recebido: " ++ d.verifyingDigit)⟩) := by
  unfold validateCNJ
  cases hd : decomposeCNJ districts cnj with
  | error e =>
    dsimp only
    refine ⟨fun _ => ⟨e.message, rfl, decomposeCNJ_error_message districts cnj e hd⟩,
      fun e2 he2 => ?_, fun d exp hd2 => absurd hd2 (by simp)⟩
    injection he2 with h
    subst h
    exact ⟨rfl, decomposeCNJ_error_message districts cnj e hd⟩
  | ok d =>
    dsimp only
    cases hc : calculateVerifyingDigit d.argNumber with
    | error e =>
      dsimp only
      have hmsg : e.message ≠ "" := by
        rw [calcVD_error_eq _ _ hc]
        decide
      refine ⟨fun _ => ⟨e.message, rfl, hmsg⟩,
        fun e2 he2 => absurd he2 (by simp),
        fun d2 exp hd2 hc2 => ?_⟩
      injection hd2 with h
      subst h
      rw [hc] at hc2
      exact absurd hc2 (by simp)
    | ok exp =>
      dsimp only
      by_cases hv : d.verifyingDigit = exp
      · refine ⟨fun h => ?_, fun e2 he2 => absurd he2 (by simp),
          fun d2 exp2 hd2 hc2 hne => ?_⟩
        · simp [hv] at h
        · injection hd2 with h
          subst h
          rw [hc] at hc2
          injection hc2 with h2
          subst h2
          exact absurd hv hne
      · refine ⟨fun _ => ⟨"Dígito verificador inválido. Esperado: " ++ exp ++
            ", Recebido: " ++ d.verifyingDigit, by simp [hv], str_ne_empty_of_len_pos _
            (len_pos_append_left _ _ (len_pos_append_left _ _
              (len_pos_append_left _ _ (by decide))))⟩,
          fun e2 he2 => absurd he2 (by simp),
          fun d2 exp2 hd2 hc2 hne => ?_⟩
        injection hd2 with h
        subst h
        rw [hc] at hc2
        injection hc2 with h2
        subst h2
        simp [hv]


/-- Witness for C2 at the mismatching identifier
`"0001327-65.2018.8.26.0158"` (expected digit 64, received 65). -/
theorem spec_C2_witness :
    validateCNJ [] "0001327-65.2018.8.26.0158" =
      ⟨false, some "64", some "65",
        some "Dígito verificador inválido. Esperado: 64, Recebido: 65"⟩ := by
  have h := (spec_C2 [] "0001327-65.2018.8.26.0158").2.2
    ⟨"0001327-65.2018.8.26.0158", "0001327", "65", "2018", "8", "26", "0158",
      "00013272018826015800", "", "", "TJ"⟩ "64" rfl rfl (by decide)
  exact h

theorem splitChar_of_not_mem (c : Char) (l : List Char) (h : c ∉ l) :
    splitChar c l = [l] := by
  induction l with
  | nil => rfl
  | cons x xs ih =>
    have hx : ¬ x = c := fun he => h (he ▸ List.mem_cons_self x xs)
    rw [splitChar, if_neg hx, ih (fun hm => h (List.mem_cons_of_mem x hm))]

theorem splitChar_append (c : Char) (xs ys : List Char) (h : c ∉ xs) :
    splitChar c (xs ++ c :: ys) = xs :: splitChar c ys := by
  induction xs with
  | nil => simp [splitChar]
  | cons a t ih =>
    have ha : ¬ a = c := fun he => h (he ▸ List.mem_cons_self a t)
    rw [List.cons_append, splitChar, if_neg ha,
      ih (fun hm => h (List.mem_cons_of_mem a hm))]

theorem not_mem_of_digits (c : Char) (hc : c.isDigit = false) (l : List Char)
    (h : ∀ x ∈ l, x.isDigit = true) : c ∉ l := fun hm => by
  rw [h c hm] at hc
  cases hc

/-- C3: decomposing a valid 20-digit compact identifier and decomposing its
`formatCNJ` masked rendering yield the same `DecomposedCNJ` record (hence
the same six fields); in particular `"00013276420188260158"` decomposes
identically to `"0001327-64.2018.8.26.0158"` (for every district table). -/
theorem spec_C3 (districts : DistrictMap) (s : String) (hlen : s.length = 20)
    (hdig : ∀ c ∈ s.data, c.isDigit = true) :
    ∃ d masked, decomposeCNJ districts s = .ok d ∧ formatCNJ s = .ok masked ∧
      decomposeCNJ districts masked = .ok d ∧
      decomposeCNJ districts "00013276420188260158" =
        decomposeCNJ districts "0001327-64.2018.8.26.0158" := by
  have hlenl : s.data.length = 20 := hlen
  have hA : ∀ x ∈ s.data.take 7, x.isDigit = true :=
    fun x hx => hdig x (List.take_subset _ _ hx)
  have hB : ∀ x ∈ (s.data.drop 7).take 2, x.isDigit = true :=
    fun x hx => hdig x (List.drop_subset _ _ (List.take_subset _ _ hx))
  have hC : ∀ x ∈ (s.data.drop 9).take 4, x.isDigit = true :=
    fun x hx => hdig x (List.drop_subset _ _ (List.take_subset _ _ hx))
  have hD : ∀ x ∈ (s.data.drop 13).take 1, x.isDigit = true :=
    fun x hx => hdig x (List.drop_subset _ _ (List.take_subset _ _ hx))
  have hE : ∀ x ∈ (s.data.drop 14).take 2, x.isDigit = true :=
    fun x hx => hdig x (List.drop_subset _ _ (List.take_subset _ _ hx))
  have hF : ∀ x ∈ (s.data.drop 16).take 4, x.isDigit = true :=
    fun x hx => hdig x (List.drop_subset _ _ (List.take_subset _ _ hx))
  refine ⟨buildDecomposedCNJ districts
      ⟨substr s 0 7, substr s 7 9, substr s 9 13, substr s 13 14,
        substr s 14 16, substr s 16 20⟩,
    substr s 0 7 ++ "-" ++ substr s 7 9 ++ "." ++ substr s 9 13 ++ "." ++
      substr s 13 14 ++ "." ++ substr s 14 16 ++ "." ++ substr s 16 20,
    ?_, ?_, ?_, rfl⟩
  · unfold decomposeCNJ decomposeUnformattedCNJ
    rw [if_neg (by omega), if_neg (not_mem_of_digits '-' (by decide) s.data hdig),
      if_neg (by omega)]
  · have hn : normalizeCNJ s = s := by
      unfold normalizeCNJ
      rw [List.filter_eq_self.mpr hdig]
    unfold formatCNJ
    rw [hn, if_neg (by omega)]
  · have hmd : (substr s 0 7 ++ "-" ++ substr s 7 9 ++ "." ++ substr s 9 13 ++ "." ++
        substr s 13 14 ++ "." ++ substr s 14 16 ++ "." ++ substr s 16 20).data =
        s.data.take 7 ++ '-' :: ((s.data.drop 7).take 2 ++ '.' :: ((s.data.drop 9).take 4 ++
          '.' :: ((s.data.drop 13).take 1 ++ '.' :: ((s.data.drop 14).take 2 ++
            '.' :: (s.data.drop 16).take 4)))) := by
      simp [substr, String.data_append]
    have hlA : (s.data.take 7).length = 7 := by rw [List.length_take]; omega
    have hlB : ((s.data.drop 7).take 2).length = 2 := by
      rw [List.length_take, List.length_drop]; omega
    have hlC : ((s.data.drop 9).take 4).length = 4 := by
      rw [List.length_take, List.length_drop]; omega
    have hlD : ((s.data.drop 13).take 1).length = 1 := by
      rw [List.length_take, List.length_drop]; omega
    have hlE : ((s.data.drop 14).take 2).length = 2 := by
      rw [List.length_take, List.length_drop]; omega
    have hlF : ((s.data.drop 16).take 4).length = 4 := by
      rw [List.length_take, List.length_drop]; omega
    have hmlen : (substr s 0 7 ++ "-" ++ substr s 7 9 ++ "." ++ substr s 9 13 ++ "." ++
        substr s 13 14 ++ "." ++ substr s 14 16 ++ "." ++ substr s 16 20).length = 25 := by
      show (substr s 0 7 ++ "-" ++ substr s 7 9 ++ "." ++ substr s 9 13 ++ "." ++
        substr s 13 14 ++ "." ++ substr s 14 16 ++ "." ++ substr s 16 20).data.length = 25
      rw [hmd]
      simp only [List.length_append, List.length_cons, hlA, hlB, hlC, hlD, hlE, hlF]
    have hyph : '-' ∈ (substr s 0 7 ++ "-" ++ substr s 7 9 ++ "." ++ substr s 9 13 ++ "." ++
        substr s 13 14 ++ "." ++ substr s 14 16 ++ "." ++ substr s 16 20).data := by
      rw [hmd]
      exact List.mem_append.mpr (Or.inr (List.mem_cons_self _ _))
    unfold decomposeCNJ
    rw [if_neg (by omega), if_pos hyph]
    unfold decomposeFormattedCNJ
    rw [hmd, splitChar_append '-' _ _ (not_mem_of_digits '-' (by decide) _ hA)]
    have hrest : splitChar '-' ((s.data.drop 7).take 2 ++ '.' :: ((s.data.drop 9).take 4 ++
        '.' :: ((s.data.drop 13).take 1 ++ '.' :: ((s.data.drop 14).take 2 ++
          '.' :: (s.data.drop 16).take 4)))) =
        [(s.data.drop 7).take 2 ++ '.' :: ((s.data.drop 9).take 4 ++
          '.' :: ((s.data.drop 13).take 1 ++ '.' :: ((s.data.drop 14).take 2 ++
            '.' :: (s.data.drop 16).take 4)))] := by
      apply splitChar_of_not_mem
      intro hm
      simp only [List.mem_append, List.mem_cons] at hm
      rcases hm with h1 | h1 | h1 | h1 | h1 | h1 | h1 | h1 | h1
      · exact absurd (hB _ h1) (by decide)
      · exact absurd h1 (by decide)
      · exact absurd (hC _ h1) (by decide)
      · exact absurd h1 (by decide)
      · exact absurd (hD _ h1) (by decide)
      · exact absurd h1 (by decide)
      · exact absurd (hE _ h1) (by decide)
      · exact absurd h1 (by decide)
      · exact absurd (hF _ h1) (by decide)
    rw [hrest]
    dsimp only
    rw [splitChar_append '.' _ _ (not_mem_of_digits '.' (by decide) _ hB),
      splitChar_append '.' _ _ (not_mem_of_digits '.' (by decide) _ hC),
      splitChar_append '.' _ _ (not_mem_of_digits '.' (by decide) _ hD),
      splitChar_append '.' _ _ (not_mem_of_digits '.' (by decide) _ hE),
      splitChar_of_not_mem '.' _ (not_mem_of_digits '.' (by decide) _ hF)]
    rfl

/-- Witness for C3 at the compact reference identifier. -/
theorem spec_C3_witness :
    ∃ d masked, decomposeCNJ [] "00013276420188260158" = .ok d ∧
      formatCNJ "00013276420188260158" = .ok masked ∧
      decomposeCNJ [] masked = .ok d ∧
      decomposeCNJ [] "00013276420188260158" =
        decomposeCNJ [] "0001327-64.2018.8.26.0158" :=
  spec_C3 [] "00013276420188260158" rfl (by decide)

/-- C5 counterexample: the masked path of `decomposeCNJ` performs no width
validation, so the 24-character masked input `"001327-64.2018.8.26.0158"`
(6-digit lawsuit number) decomposes without error even though the
concatenation of its non-checksum fields has 17 characters and its
`argNumber` has 19 — refuting the claimed invariant. -/
theorem spec_C5_counterexample :
    decomposeCNJ [] "001327-64.2018.8.26.0158" =
      .ok ⟨"001327-64.2018.8.26.0158", "001327", "64", "2018", "8", "26", "0158",
        "0013272018826015800", "", "", "TJ"⟩ ∧
    ("001327" ++ "2018" ++ "8" ++ "26" ++ "0158").length = 17 ∧
    "0013272018826015800".length = 19 :=
  ⟨rfl, rfl, rfl⟩

/-- C5 (amended): the invariant holds for every input accepted through the
compact (hyphen-free) path — the five non-checksum fields concatenate to
exactly 18 characters and `argNumber` to exactly 20, and they are decimal
digits whenever the input is; the masked path does not enforce widths. -/
theorem spec_C5 (districts : DistrictMap) (s : String) (hny : '-' ∉ s.data)
    (d : DecomposedCNJ) (h : decomposeCNJ districts s = .ok d) :
    (d.lawsuitNumber ++ d.protocolYear ++ d.segment ++ d.court ++ d.sourceUnit).length = 18 ∧
    d.argNumber.length = 20 ∧
    ((∀ c ∈ s.data, c.isDigit = true) →
      (∀ c ∈ (d.lawsuitNumber ++ d.protocolYear ++ d.segment ++ d.court ++
        d.sourceUnit).data, c.isDigit = true) ∧
      (∀ c ∈ d.argNumber.data, c.isDigit = true)) := by
  unfold decomposeCNJ at h
  by_cases hl : s.length > 25 ∨ s.length < 20
  · rw [if_pos hl] at h
    exact absurd h (by simp)
  · rw [if_neg hl, if_neg hny] at h
    unfold decomposeUnformattedCNJ at h
    by_cases hl2 : s.length ≠ 20
    · rw [if_pos hl2] at h
      exact absurd h (by simp)
    · rw [if_neg hl2] at h
      have hlen20 : s.data.length = 20 := not_ne_iff.mp hl2
      injection h with h2
      subst h2
      dsimp only [buildDecomposedCNJ]
      have hsub : ∀ a b : Nat, a ≤ b → b ≤ 20 → (substr s a b).length = b - a := by
        intro a b h1 h2
        show ((s.data.drop a).take (b - a)).length = b - a
        rw [List.length_take, List.length_drop, hlen20]
        omega
      have hmem : ∀ a b : Nat, ∀ c ∈ (substr s a b).data, c ∈ s.data := by
        intro a b c hc
        exact List.drop_subset _ _ (List.take_subset _ _ hc)
      refine ⟨?_, ?_, fun hdig => ⟨?_, ?_⟩⟩
      · simp only [String.length_append]
        rw [hsub 0 7 (by omega) (by omega), hsub 9 13 (by omega) (by omega),
          hsub 13 14 (by omega) (by omega), hsub 14 16 (by omega) (by omega),
          hsub 16 20 (by omega) (by omega)]
      · simp only [String.length_append]
        rw [hsub 0 7 (by omega) (by omega), hsub 9 13 (by omega) (by omega),
          hsub 13 14 (by omega) (by omega), hsub 14 16 (by omega) (by omega),
          hsub 16 20 (by omega) (by omega)]
        rfl
      · intro c hc
        simp only [String.data_append, List.mem_append] at hc
        rcases hc with ((((h1 | h1) | h1) | h1) | h1) <;>
          exact hdig c (hmem _ _ c h1)
      · intro c hc
        simp only [String.data_append, List.mem_append] at hc
        rcases hc with (((((h1 | h1) | h1) | h1) | h1) | h1)
        · exact hdig c (hmem _ _ c h1)
        · exact hdig c (hmem _ _ c h1)
        · exact hdig c (hmem _ _ c h1)
        · exact hdig c (hmem _ _ c h1)
        · exact hdig c (hmem _ _ c h1)
        · have h2 : c ∈ ['0', '0'] := h1
          rcases List.mem_cons.mp h2 with h3 | h3
          · rw [h3]; decide
          · rcases List.mem_cons.mp h3 with h4 | h4
            · rw [h4]; decide
            · cases h4

/-- Witness for C5 at the compact reference identifier. -/
theorem spec_C5_witness :
    ("0001327" ++ "2018" ++ "8" ++ "26" ++ "0158").length = 18 ∧
    "00013272018826015800".length = 20 := by
  have h := spec_C5 [] "00013276420188260158" (by decide)
    ⟨"0001327-64.2018.8.26.0158", "0001327", "64", "2018", "8", "26", "0158",
      "00013272018826015800", "", "", "TJ"⟩ rfl
  exact ⟨h.1, h.2.1⟩

/-- C7: `getOriginCourt "00"` labels segments 1–3 with the segment's own
name and short code, segment 5 with the Superior Labor Court (TST), segment
6 with the Superior Electoral Court (TSE) and segments 7 and 9 with the
Superior Military Court (STM), always as an original-lawsuit
classification; every other segment number (in particular 4 and 8) fails
with `InvalidCourt`. -/
theorem spec_C7 (s : Segment) :
    ((s.number = 1 ∨ s.number = 2 ∨ s.number = 3) →
      getOriginCourt "00" s = .ok ⟨ORIGINAL_LAWSUIT, s.name ++ " (" ++ s.short ++ ")"⟩) ∧
    (s.number = 5 →
      getOriginCourt "00" s = .ok ⟨ORIGINAL_LAWSUIT, "Tribunal Superior do Trabalho (TST)"⟩) ∧
    (s.number = 6 →
      getOriginCourt "00" s = .ok ⟨ORIGINAL_LAWSUIT, "Tribunal Superior Eleitoral (TSE)"⟩) ∧
    ((s.number = 7 ∨ s.number = 9) →
      getOriginCourt "00" s = .ok ⟨ORIGINAL_LAWSUIT, "Superior Tribunal Militar (STM)"⟩) ∧
    (s.number ≠ 1 → s.number ≠ 2 → s.number ≠ 3 → s.number ≠ 5 → s.number ≠ 6 →
      s.number ≠ 7 → s.number ≠ 9 →
      getOriginCourt "00" s = .error (mkInvalidCourt "00" s.number) ∧
      (mkInvalidCourt "00" s.number).type = .INVALID_COURT) := by
  refine ⟨fun h => ?_, fun h => ?_, fun h => ?_, fun h => ?_,
    fun h1 h2 h3 h5 h6 h7 h9 => ⟨?_, rfl⟩⟩
  · rcases h with h | h | h <;> simp [getOriginCourt, parseCourt00, h]
  · simp [getOriginCourt, parseCourt00, h]
  · simp [getOriginCourt, parseCourt00, h]
  · rcases h with h | h <;> simp [getOriginCourt, parseCourt00, h]
  · simp [getOriginCourt, parseCourt00, h1, h2, h3, h5, h6, h7, h9]

/-- Witness for C7 at one segment of each branch, including the two error
segments 4 and 8. -/
theorem spec_C7_witness :
    getOriginCourt "00" ⟨1, "Supremo Tribunal Federal", "STF"⟩ =
      .ok ⟨ORIGINAL_LAWSUIT, "Supremo Tribunal Federal" ++ " (" ++ "STF" ++ ")"⟩ ∧
    getOriginCourt "00" ⟨5, "Justiça do Trabalho", "TRT"⟩ =
      .ok ⟨ORIGINAL_LAWSUIT, "Tribunal Superior do Trabalho (TST)"⟩ ∧
    getOriginCourt "00" ⟨6, "Justiça Eleitoral", "TRE"⟩ =
      .ok ⟨ORIGINAL_LAWSUIT, "Tribunal Superior Eleitoral (TSE)"⟩ ∧
    getOriginCourt "00" ⟨9, "Justiça Militar Estadual", "TJM"⟩ =
      .ok ⟨ORIGINAL_LAWSUIT, "Superior Tribunal Militar (STM)"⟩ ∧
    getOriginCourt "00" ⟨4, "Justiça Federal", "TRF"⟩ =
      .error (mkInvalidCourt "00" 4) ∧
    getOriginCourt "00" ⟨8, "Justiça dos Estados e do Distrito Federal e Territórios", "TJ"⟩ =
      .error (mkInvalidCourt "00" 8) :=
  ⟨(spec_C7 ⟨1, "Supremo Tribunal Federal", "STF"⟩).1 (Or.inl rfl),
    (spec_C7 ⟨5, "Justiça do Trabalho", "TRT"⟩).2.1 rfl,
    (spec_C7 ⟨6, "Justiça Eleitoral", "TRE"⟩).2.2.1 rfl,
    (spec_C7 ⟨9, "Justiça Militar Estadual", "TJM"⟩).2.2.2.1 (Or.inr rfl),
    ((spec_C7 ⟨4, "Justiça Federal", "TRF"⟩).2.2.2.2 (by decide) (by decide) (by decide)
      (by decide) (by decide) (by decide) (by decide)).1,
    ((spec_C7 ⟨8, "Justiça dos Estados e do Distrito Federal e Territórios", "TJ"⟩).2.2.2.2
      (by decide) (by decide) (by decide) (by decide) (by decide) (by decide) (by decide)).1⟩

/-- C8: for segments 1–3 every court code other than the special codes
`"00"` and `"90"` makes `getOriginCourt` fail with `InvalidCourt` — the
stored maximum of 0 lets `isCourtValid` pass, but `getCourtTypeAndNumber`
has no branch for these segments, so no numeric court code is accepted. -/
theorem spec_C8 (s : Segment) (court : String)
    (hseg : s.number = 1 ∨ s.number = 2 ∨ s.number = 3)
    (h00 : court ≠ "00") (h90 : court ≠ "90") :
    ∃ e, getOriginCourt court s = .error e ∧ e.type = .INVALID_COURT := by
  unfold getOriginCourt
  rw [if_neg h00, if_neg h90]
  unfold parseCourtOther
  cases hp : jsParseInt court with
  | none => exact ⟨mkInvalidCourt court s.number, rfl, rfl⟩
  | some n =>
    dsimp only
    have h9 : ¬ s.number = 9 := by rcases hseg with h | h | h <;> simp [h]
    rw [if_neg h9]
    have hvalid : isCourtValid s n = true := by
      rcases hseg with h | h | h <;> simp [isCourtValid, MAX_COURT_BY_SEGMENT, h]
    rw [if_neg (by simp [hvalid])]
    have hct : getCourtTypeAndNumber s n =
        .error (mkInvalidCourt (toString n) s.number) := by
      rcases hseg with h | h | h <;> simp [getCourtTypeAndNumber, h]
    rw [hct]
    exact ⟨mkInvalidCourt (toString n) s.number, rfl, rfl⟩

/-- Witness for C8: segment 1 with the numeric court code `"26"`. -/
theorem spec_C8_witness :
    ∃ e, getOriginCourt "26" ⟨1, "Supremo Tribunal Federal", "STF"⟩ = .error e ∧
      e.type = .INVALID_COURT :=
  spec_C8 ⟨1, "Supremo Tribunal Federal", "STF"⟩ "26" (Or.inl rfl)
    (by decide) (by decide)

/-- C9: `getSourceUnit` is total (it always returns, its number field
echoing the input): `"0000"` always classifies as the original court-level
competence and a leading `'9'` always as the original appellate-panel
competence, regardless of segment; any other 4-digit code takes its type
from the per-segment default table, with segment numbers absent from the
table falling back to the civil-forum label rather than erroring. -/
theorem spec_C9 (su : String) (s : Segment) (hlen : su.length = 4)
    (hdig : ∀ c ∈ su.data, c.isDigit = true) :
    (getSourceUnit su s).sourceUnitNumber = su ∧
    (su = "0000" → getSourceUnit su s = ⟨COURT_UNIT_SINGLE, su⟩) ∧
    (su.data.head? = some '9' → getSourceUnit su s = ⟨COURT_UNIT, su⟩) ∧
    (su ≠ "0000" → su.data.head? ≠ some '9' →
      getSourceUnit su s = ⟨(SOURCE_UNIT_CONFIG s.number).getD CIVIL_UNIT, su⟩) ∧
    (SOURCE_UNIT_CONFIG s.number = none → su ≠ "0000" → su.data.head? ≠ some '9' →
      getSourceUnit su s = ⟨CIVIL_UNIT, su⟩) := by
  refine ⟨?_, fun h0 => ?_, fun h9 => ?_, fun h0 h9 => ?_, fun hcfg h0 h9 => ?_⟩
  · unfold getSourceUnit
    split_ifs <;> rfl
  · simp [getSourceUnit, h0]
  · have h0 : ¬ su = "0000" := by
      rintro rfl
      exact absurd h9 (by decide)
    simp [getSourceUnit, h0, h9]
  · simp [getSourceUnit, h0, h9]
  · simp [getSourceUnit, h0, h9, hcfg]

/-- Witness for C9: the two special codes, a table segment, and an unknown
segment number (12) falling back to the civil-forum label. -/
theorem spec_C9_witness :
    (getSourceUnit "0158" ⟨8, "Justiça dos Estados e do Distrito Federal e Territórios", "TJ"⟩).sourceUnitNumber = "0158" ∧
    getSourceUnit "0000" ⟨5, "Justiça do Trabalho", "TRT"⟩ = ⟨COURT_UNIT_SINGLE, "0000"⟩ ∧
    getSourceUnit "9001" ⟨4, "Justiça Federal", "TRF"⟩ = ⟨COURT_UNIT, "9001"⟩ ∧
    getSourceUnit "0158" ⟨8, "Justiça dos Estados e do Distrito Federal e Territórios", "TJ"⟩ =
      ⟨(SOURCE_UNIT_CONFIG 8).getD CIVIL_UNIT, "0158"⟩ ∧
    getSourceUnit "0158" ⟨12, "desconhecido", "XX"⟩ = ⟨CIVIL_UNIT, "0158"⟩ :=
  ⟨(spec_C9 "0158" ⟨8, "Justiça dos Estados e do Distrito Federal e Territórios", "TJ"⟩ rfl (by decide)).1,
    (spec_C9 "0000" ⟨5, "Justiça do Trabalho", "TRT"⟩ rfl (by decide)).2.1 rfl,
    (spec_C9 "9001" ⟨4, "Justiça Federal", "TRF"⟩ rfl (by decide)).2.2.1 rfl,
    (spec_C9 "0158" ⟨8, "Justiça dos Estados e do Distrito Federal e Territórios", "TJ"⟩ rfl (by decide)).2.2.2.1
      (by decide) (by decide),
    (spec_C9 "0158" ⟨12, "desconhecido", "XX"⟩ rfl (by decide)).2.2.2.2 rfl
      (by decide) (by decide)⟩

theorem decomposeCNJ_enrichment (districts : DistrictMap) (cnj : String)
    (d : DecomposedCNJ) (h : decomposeCNJ districts cnj = .ok d) :
    d.district = ((getDistrictInfo districts
        (generateDistrictKey d.segment d.court d.sourceUnit)).map (·.sourceUnit)).getD "" ∧
    d.uf = ((getDistrictInfo districts
        (generateDistrictKey d.segment d.court d.sourceUnit)).map (·.uf)).getD "" := by
  unfold decomposeCNJ decomposeFormattedCNJ decomposeUnformattedCNJ at h
  split at h
  · exact absurd h (by simp)
  · split at h
    · split at h
      · split at h
        · injection h with h2
          subst h2
          exact ⟨rfl, rfl⟩
        · exact absurd h (by simp)
      · exact absurd h (by simp)
    · split at h
      · exact absurd h (by simp)
      · injection h with h2
        subst h2
        exact ⟨rfl, rfl⟩

/-- C10: the district table is live mutable state behind the API — after
`addDistrict key info` the lookups `getDistrictInfo`/`hasDistrict` observe
the new record at `key`, all other keys are untouched, and any subsequent
`decomposeCNJ` whose composed district key (`segment.court.sourceUnit`)
equals `key` is enriched with the record's `sourceUnit` and `uf` fields. -/
theorem spec_C10 (m : DistrictMap) (key : String) (info : DistrictInfo) :
    getDistrictInfo (addDistrict m key info) key = some info ∧
    hasDistrict (addDistrict m key info) key = true ∧
    (∀ k, k ≠ key →
      getDistrictInfo (addDistrict m key info) k = getDistrictInfo m k ∧
      hasDistrict (addDistrict m key info) k = hasDistrict m k) ∧
    (∀ cnj d, decomposeCNJ (addDistrict m key info) cnj = .ok d →
      generateDistrictKey d.segment d.court d.sourceUnit = key →
      d.district = info.sourceUnit ∧ d.uf = info.uf) := by
  have hfind : List.find? (fun p => p.1 = key) (addDistrict m key info) = some (key, info) :=
    List.find?_cons_of_pos _ (by simp)
  have hother : ∀ k, k ≠ key →
      List.find? (fun p => p.1 = k) (addDistrict m key info) =
        List.find? (fun p => p.1 = k) m := by
    intro k hk
    exact List.find?_cons_of_neg _ (by simp; exact fun h => hk h.symm)
  refine ⟨by simp [getDistrictInfo, hfind], by simp [hasDistrict, hfind],
    fun k hk => ⟨by simp [getDistrictInfo, hother k hk], by simp [hasDistrict, hother k hk]⟩,
    fun cnj d hd hkey => ?_⟩
  have he := decomposeCNJ_enrichment _ _ _ hd
  rw [hkey] at he
  rw [he.1, he.2]
  simp [getDistrictInfo, hfind]

/-- Witness for C10: adding the district key of the reference identifier to
an empty table and decomposing it observes the new record. -/
theorem spec_C10_witness :
    getDistrictInfo (addDistrict [] "8.26.0158" ⟨"Comarca Teste", "SP", "São Paulo"⟩)
      "8.26.0158" = some ⟨"Comarca Teste", "SP", "São Paulo"⟩ ∧
    hasDistrict (addDistrict [] "8.26.0158" ⟨"Comarca Teste", "SP", "São Paulo"⟩)
      "8.26.0158" = true ∧
    getDistrictInfo (addDistrict [] "8.26.0158" ⟨"Comarca Teste", "SP", "São Paulo"⟩)
      "5.02.0000" = getDistrictInfo [] "5.02.0000" ∧
    ("Comarca Teste" = "Comarca Teste" ∧ "SP" = "SP") := by
  have h := spec_C10 [] "8.26.0158" ⟨"Comarca Teste", "SP", "São Paulo"⟩
  refine ⟨h.1, h.2.1, (h.2.2.1 "5.02.0000" (by decide)).1, ?_⟩
  have h4 := h.2.2.2 "00013276420188260158"
    ⟨"0001327-64.2018.8.26.0158", "0001327", "64", "2018", "8", "26", "0158",
      "00013272018826015800", "Comarca Teste", "SP", "TJSP"⟩ rfl rfl
  exact h4

theorem processCSVAux_errors (districts : DistrictMap) (sep : Char) :
    ∀ (lines : List String) (idx : Nat) (e : CSVError),
      e ∈ (processCSVAux districts sep lines idx).2 →
      ∃ j, j < lines.length ∧ e.line = idx + j + 1 ∧
        ∃ l, lines.get? j = some l ∧
          (e.cnj = l ∨ e.cnj = jsTrim (String.mk ((splitChar sep l.data).headD []))) := by
  intro lines
  induction lines with
  | nil => intro idx e he; exact absurd he (by simp [processCSVAux])
  | cons line rest ih =>
    intro idx e he
    rw [processCSVAux] at he
    by_cases hcnj : jsTrim (String.mk ((splitChar sep line.data).headD [])) = ""
    · rw [if_pos hcnj] at he
      rcases List.mem_cons.mp he with h1 | h1
      · subst h1
        exact ⟨0, by simp, rfl, line, rfl, Or.inl rfl⟩
      · obtain ⟨j, hj, hline, l, hl, hcl⟩ := ih (idx + 1) e h1
        exact ⟨j + 1, by simpa using Nat.succ_lt_succ hj, by omega, l, hl, hcl⟩
    · rw [if_neg hcnj] at he
      cases ha : analyzeCNJ districts (jsTrim (String.mk ((splitChar sep line.data).headD []))) with
      | ok a =>
        rw [ha] at he
        obtain ⟨j, hj, hline, l, hl, hcl⟩ := ih (idx + 1) e he
        exact ⟨j + 1, by simpa using Nat.succ_lt_succ hj, by omega, l, hl, hcl⟩
      | error err =>
        rw [ha] at he
        rcases List.mem_cons.mp he with h1 | h1
        · subst h1
          exact ⟨0, by simp, rfl, line, rfl, Or.inr rfl⟩
        · obtain ⟨j, hj, hline, l, hl, hcl⟩ := ih (idx + 1) e h1
          exact ⟨j + 1, by simpa using Nat.succ_lt_succ hj, by omega, l, hl, hcl⟩

/-- C4 (amended): every `processCSV` error entry carries the 1-based
position of the offending line within the list of non-blank lines — blank
lines are filtered out before numbering, so the number differs from the
original input position whenever an earlier line was blank.  The entry's
stored value is the offending line (or its trimmed first field). -/
theorem spec_C4 (districts : DistrictMap) (sep : Char) (content : String)
    (e : CSVError) (he : e ∈ (processCSV districts sep content).errors) :
    1 ≤ e.line ∧ e.line ≤ (csvLines content).length ∧
    ∃ l, (csvLines content).get? (e.line - 1) = some l ∧
      (e.cnj = l ∨ e.cnj = jsTrim (String.mk ((splitChar sep l.data).headD []))) := by
  have h := processCSVAux_errors districts sep (csvLines content) 0 e he
  obtain ⟨j, hj, hline, l, hl, hcl⟩ := h
  refine ⟨by omega, by omega, l, ?_, hcl⟩
  have : e.line - 1 = j := by omega
  rw [this]
  exact hl

/-- C4 counterexample: in the batch with one blank line and one malformed
line among two valid ones, the malformed line `"invalid-cnj"` is the 3rd
line of the original text (1-based), yet the single error entry reports
line 2 — its position among the non-blank lines — refuting the claim that
error line numbers match the original input position.  `totalProcessed = 3`
and `errors.length = 1` do hold. -/
theorem spec_C4_counterexample :
    ((splitChar '\n'
        ("0001327-64.2018.8.26.0158\n\ninvalid-cnj\n0001327-64.2018.8.26.0158").data).map
        String.mk =
      ["0001327-64.2018.8.26.0158", "", "invalid-cnj", "0001327-64.2018.8.26.0158"]) ∧
    processCSV [] ',' "0001327-64.2018.8.26.0158\n\ninvalid-cnj\n0001327-64.2018.8.26.0158" =
      ⟨3, 2, 1,
        [⟨2, "invalid-cnj", "Tamanho CNJ inválido: 11. Esperado: 20 caracteres"⟩]⟩ :=
  ⟨rfl, rfl⟩

/-- Witness for C4 at the blank-line scenario batch. -/
theorem spec_C4_witness :
    1 ≤ (2 : Nat) ∧
    (2 : Nat) ≤ (csvLines "0001327-64.2018.8.26.0158\n\ninvalid-cnj\n0001327-64.2018.8.26.0158").length ∧
    ∃ l, (csvLines "0001327-64.2018.8.26.0158\n\ninvalid-cnj\n0001327-64.2018.8.26.0158").get?
        (2 - 1) = some l ∧
      ("invalid-cnj" = l ∨
        "invalid-cnj" = jsTrim (String.mk ((splitChar ',' l.data).headD []))) := by
  have h := spec_C4 [] ','
    "0001327-64.2018.8.26.0158\n\ninvalid-cnj\n0001327-64.2018.8.26.0158"
    ⟨2, "invalid-cnj", "Tamanho CNJ inválido: 11. Esperado: 20 caracteres"⟩ (by decide)
  exact h
